import Mathlib

/-!
Shallow embedding of the Beijing commute optimizer (candidate generation,
pruning, scoring, scenario detection and recommendation engine).

Numbers are modelled as rationals (`ℚ`); JavaScript `Math.round` becomes
`jsRound`, `Math.round (x * 10) / 10` becomes `round1`, `Math.min`/`Math.max`
spread over an array become `listMin`/`listMax`.  The external mapping
provider is passed in as a function argument (transit routes / driving
estimates); the repository's mock data is reproduced verbatim.  Scenario and
preference labels are the exact strings the source uses
(`"赶路模式"` = rushToCatch, `"深夜模式"` = lateNight, `"高峰模式"` = peak,
`"日常模式"` = routine).
-/

/-- JavaScript `Math.round`: round half toward positive infinity. -/
def jsRound (x : ℚ) : ℤ := ⌊x + 1/2⌋

/-- JavaScript `Math.round(x * 10) / 10`: round to one decimal. -/
def round1 (x : ℚ) : ℚ := (jsRound (x * 10) : ℚ) / 10

/-- `Math.min(...xs)` over a nonempty array (the `0` default is never used
by the code, which guards against empty inputs). -/
def listMin : List ℚ → ℚ
  | [] => 0
  | x :: xs => xs.foldl min x

/-- `Math.max(...xs)` over a nonempty array. -/
def listMax : List ℚ → ℚ
  | [] => 0
  | x :: xs => xs.foldl max x

/-- A geographic point `{lng, lat, name}`; all fields may be absent in a
malformed request. -/
structure GeoPoint where
  lng : Option ℚ := none
  lat : Option ℚ := none
  name : Option String := none
deriving DecidableEq, Repr

/-- One leg of travel.  JavaScript segment objects are heterogeneous, so the
fields a given mode does not carry are `none`. -/
structure Segment where
  mode : String
  line : Option String := none
  «from» : Option String := none
  «to» : Option String := none
  stations : Option Nat := none
  distance : Option ℚ := none
  duration : ℚ := 0
  cost : Option ℚ := none
  waitTime : Option ℚ := none
deriving DecidableEq, Repr

/-- A transit itinerary as returned by the provider wrapper
(`_parseSubwayRoutes` / `_mockSubwayRoutes`). -/
structure TransitRoute where
  id : String
  duration : ℚ
  distance : ℚ
  cost : ℚ
  walkDistance : ℚ
  segments : List Segment
deriving DecidableEq, Repr

/-- A driving estimate as returned by `_parseDrivingRoute` /
`_mockDrivingRoute`. -/
structure DrivingRoute where
  distance : ℚ
  duration : ℚ
  traffic : ℚ := 0
  tolls : ℚ := 0
deriving DecidableEq, Repr

/-- A route candidate (pure subway, pure taxi or mixed). -/
structure Route where
  id : String
  type : String
  segments : List Segment
  totalDuration : ℚ
  totalCost : ℚ
  totalDistance : ℚ
deriving DecidableEq, Repr

/-- Sum of the `duration` fields of a segment list (every segment variant
carries a duration). -/
def durationSum (segs : List Segment) : ℚ := (segs.map Segment.duration).sum

/-- Sum of the `cost` fields of a segment list; a segment without a cost
field contributes nothing. -/
def costSum (segs : List Segment) : ℚ := (segs.map (fun s => s.cost.getD 0)).sum

/-- Sum of the `distance` fields of a segment list; a segment without a
distance field contributes nothing. -/
def distanceSum (segs : List Segment) : ℚ :=
  (segs.map (fun s => s.distance.getD 0)).sum

namespace AmapService

/-- The mock transit itinerary returned by `_mockSubwayRoutes` when no API
key is configured or the provider call fails. -/
def mockSubwayRoute : TransitRoute where
  id := "subway_mock_1"
  duration := 65
  distance := 45000
  cost := 9
  walkDistance := 800
  segments :=
    [ { mode := "walk", distance := some 300, duration := 4 },
      { mode := "subway", line := some "大兴机场线", «from» := some "大兴机场站",
        «to» := some "草桥站", stations := some 3, duration := 20 },
      { mode := "subway", line := some "4号线", «from» := some "草桥站",
        «to» := some "西直门站", stations := some 18, duration := 35 },
      { mode := "subway", line := some "昌平线", «from» := some "西直门站",
        «to» := some "生命科学园站", stations := some 4, duration := 10 },
      { mode := "walk", distance := some 500, duration := 6 } ]

/-- The mock driving estimate returned by `_mockDrivingRoute`. -/
def mockDrivingRoute : DrivingRoute where
  distance := 52000
  duration := 78
  traffic := 25
  tolls := 0

end AmapService

namespace MixedRouteGenerator

/-- `_estimateTaxiCost` of the mixed-route generator (no scenario
parameter): base fare 13, 2.3 per km beyond the first 3 km, 0.5 per
minute, rounded to one decimal. -/
def estimateTaxiCost (distance duration : ℚ) : ℚ :=
  let baseFare : ℚ := 13
  let perKm : ℚ := 2.3
  let perMin : ℚ := 0.5
  let kmCost := max 0 (distance / 1000 - 3) * perKm
  let timeCost := duration * perMin
  round1 (baseFare + kmCost + timeCost)

/-- `_calculateTaxiSegment`: build a taxi segment from a driving estimate,
adding 3 minutes of waiting into the duration. -/
def calculateTaxiSegment (src dst : GeoPoint) (driving : DrivingRoute) : Segment where
  mode := "taxi"
  «from» := src.name
  «to» := dst.name
  distance := some driving.distance
  duration := driving.duration + 3
  cost := some (estimateTaxiCost driving.distance driving.duration)
  waitTime := some 3

/-- `getSubwayStationsAlongRoute`: the hardcoded station pool. -/
def stationsAlongRoute : List GeoPoint :=
  [ { lng := some (116.410742 : ℚ), lat := some (39.509723 : ℚ), name := some "大兴机场站" },
    { lng := some (116.338611 : ℚ), lat := some (39.728831 : ℚ), name := some "大兴新城站" },
    { lng := some (116.345678 : ℚ), lat := some (39.856789 : ℚ), name := some "草桥站" },
    { lng := some (116.374762 : ℚ), lat := some (39.912289 : ℚ), name := some "西单站" },
    { lng := some (116.347382 : ℚ), lat := some (39.942327 : ℚ), name := some "西直门站" },
    { lng := some (116.358065 : ℚ), lat := some (39.953039 : ℚ), name := some "北京北站" },
    { lng := some (116.293678 : ℚ), lat := some (40.072345 : ℚ), name := some "生命科学园站" } ]

/-- A transit provider: `getSubwayRoutes` as a black box. -/
abbrev TransitProvider := GeoPoint → GeoPoint → List TransitRoute

/-- A driving provider: `getDrivingRoute` as a black box; `none` models a
null result (which makes `_calculateTaxiSegment` throw, caught by the
per-candidate try/catch, i.e. the candidate is skipped). -/
abbrev DrivingProvider := GeoPoint → GeoPoint → Option DrivingRoute

/-- Strategy 1 (`_generateStartTaxiRoutes`): taxi from the origin to each of
the first five stations, then the best transit itinerary to the
destination.  A station yielding no transit itinerary (or a failing leg) is
skipped. -/
def generateStartTaxiRoutes (origin destination : GeoPoint)
    (stations : List GeoPoint) (sub : TransitProvider) (drv : DrivingProvider) :
    List Route :=
  (stations.take 5).filterMap fun station =>
    match drv origin station with
    | none => none
    | some driving =>
      let taxiSegment := calculateTaxiSegment origin station driving
      match sub station destination with
      | [] => none
      | s :: _ =>
        some { id := "mixed_start_taxi_" ++ station.name.getD ""
               type := "mixed"
               segments := taxiSegment :: s.segments
               totalDuration := taxiSegment.duration + s.duration
               totalCost := taxiSegment.cost.getD 0 + s.cost
               totalDistance := taxiSegment.distance.getD 0 + s.distance }

/-- Strategy 2 (`_generateEndTaxiRoutes`): transit from the origin to each
of the last five stations, then taxi to the destination. -/
def generateEndTaxiRoutes (origin destination : GeoPoint)
    (stations : List GeoPoint) (sub : TransitProvider) (drv : DrivingProvider) :
    List Route :=
  (stations.drop (stations.length - 5)).filterMap fun station =>
    match sub origin station with
    | [] => none
    | s :: _ =>
      match drv station destination with
      | none => none
      | some driving =>
        let taxiSegment := calculateTaxiSegment station destination driving
        some { id := "mixed_end_taxi_" ++ station.name.getD ""
               type := "mixed"
               segments := s.segments ++ [taxiSegment]
               totalDuration := s.duration + taxiSegment.duration
               totalCost := s.cost + taxiSegment.cost.getD 0
               totalDistance := s.distance + taxiSegment.distance.getD 0 }

/-- Strategy 3 (`_generateBothTaxiRoutes`): taxi to one of the first two
stations, transit to one of the last two, taxi to the destination. -/
def generateBothTaxiRoutes (origin destination : GeoPoint)
    (stations : List GeoPoint) (sub : TransitProvider) (drv : DrivingProvider) :
    List Route :=
  (stations.take 2).flatMap fun startStation =>
    (stations.drop (stations.length - 2)).filterMap fun endStation =>
      match drv origin startStation with
      | none => none
      | some d1 =>
        let startTaxi := calculateTaxiSegment origin startStation d1
        match sub startStation endStation with
        | [] => none
        | s :: _ =>
          match drv endStation destination with
          | none => none
          | some d2 =>
            let endTaxi := calculateTaxiSegment endStation destination d2
            some { id := "mixed_both_taxi_" ++ startStation.name.getD ""
                         ++ "_" ++ endStation.name.getD ""
                   type := "mixed"
                   segments := startTaxi :: (s.segments ++ [endTaxi])
                   totalDuration := startTaxi.duration + s.duration + endTaxi.duration
                   totalCost := startTaxi.cost.getD 0 + s.cost + endTaxi.cost.getD 0
                   totalDistance := startTaxi.distance.getD 0 + s.distance
                                      + endTaxi.distance.getD 0 }

/-- The pruning value `totalDuration + totalCost * 2` used by rule 2. -/
def pruneScore (r : Route) : ℚ := r.totalDuration + r.totalCost * 2

/-- Rule 1 predicate: keep a candidate only if every taxi segment covers
more than 2000 meters. -/
def keepRoute (r : Route) : Bool :=
  (r.segments.filter (fun s => s.mode == "taxi")).all
    (fun s => decide (2000 < s.distance.getD 0))

/-- `_pruneRoutes`: drop candidates with a short taxi leg, sort ascending
by `totalDuration + 2·totalCost` (JavaScript sort is stable), keep 10. -/
def pruneRoutes (routes : List Route) : List Route :=
  let filtered := routes.filter keepRoute
  let sorted := filtered.mergeSort (fun a b => decide (pruneScore a ≤ pruneScore b))
  sorted.take 10

/-- `generateMixedRoutes`: all three strategies, then pruning. -/
def generateMixedRoutes (origin destination : GeoPoint)
    (stations : List GeoPoint) (sub : TransitProvider) (drv : DrivingProvider) :
    List Route :=
  pruneRoutes (generateStartTaxiRoutes origin destination stations sub drv
                ++ generateEndTaxiRoutes origin destination stations sub drv
                ++ generateBothTaxiRoutes origin destination stations sub drv)

end MixedRouteGenerator

/-- The per-axis and composite scores attached to a candidate. -/
structure Scores where
  time : ℤ
  cost : ℤ
  comfort : ℤ
  total : ℚ
deriving DecidableEq, Repr

/-- The human-readable summary attached to a candidate. -/
structure Summary where
  description : String
  totalTime : ℚ
  totalCost : ℚ
  walkDistance : ℚ
deriving DecidableEq, Repr

/-- A scored candidate: the candidate plus `scores` and `summary`
(the JavaScript spread `{...route, scores, summary}`). -/
structure ScoredRoute extends Route where
  scores : Scores
  summary : Summary
deriving DecidableEq, Repr

/-- A recommended/fastest/cheapest selection: a scored candidate plus its
explanatory tags. -/
structure TaggedRoute extends ScoredRoute where
  tags : List String
deriving DecidableEq, Repr

/-- A time/cost/comfort weight vector. -/
structure Weights where
  time : ℚ
  cost : ℚ
  comfort : ℚ
deriving DecidableEq, Repr

/-- The three selections returned by `_recommend`. -/
structure RecResult where
  recommended : Option TaggedRoute
  fastest : Option TaggedRoute
  cheapest : Option TaggedRoute
deriving DecidableEq, Repr

/-- The `meta` block of a planning result.  `calculatedAt` is a wall-clock
timestamp and is not modelled. -/
structure Meta where
  scenario : String
  preference : String
  totalCandidates : ℕ
deriving DecidableEq, Repr

/-- The full planning result. -/
structure PlanResult where
  recommended : Option TaggedRoute
  fastest : Option TaggedRoute
  cheapest : Option TaggedRoute
  allRoutes : List ScoredRoute
  meta : Meta
deriving DecidableEq, Repr

namespace RoutePlanner

open MixedRouteGenerator

/-- Does `needle` occur as a contiguous run inside `hay`? -/
def charsContain (needle : List Char) : List Char → Bool
  | [] => needle.isEmpty
  | c :: cs => needle.isPrefixOf (c :: cs) || charsContain needle cs

/-- Substring containment, modelling JavaScript `String.includes`. -/
def strContains (hay needle : String) : Bool := charsContain needle.data hay.data

/-- The hub-keyword check `destination.name?.includes('机场') ||
destination.name?.includes('火车站')`: a missing name yields `false` (the
optional chaining skips the check safely). -/
def hasHubKeyword : Option String → Bool
  | some n => strContains n "机场" || strContains n "火车站"
  | none => false

/-- `_detectScenario`: hub keyword first, then late night, then peak, else
routine.  `hour` is `time.getHours()`, hence in `[0, 24)`. -/
def detectScenario (origin destination : GeoPoint) (hour : ℕ) : String :=
  if hasHubKeyword destination.name then
    "赶路模式"
  else if 23 ≤ hour ∨ hour < 5 then
    "深夜模式"
  else if (7 ≤ hour ∧ hour ≤ 9) ∨ (17 ≤ hour ∧ hour ≤ 19) then
    "高峰模式"
  else
    "日常模式"

/-- `_estimateTaxiCost` of the planner (scenario-aware; the JavaScript
default argument is `scenario = '日常模式'`): the base cost, times 1.3 for
the peak scenario, times 1.5 for the late-night scenario, rounded to one
decimal. -/
def estimateTaxiCost (distance duration : ℚ)
    (scenario : String := "日常模式") : ℚ :=
  let baseFare : ℚ := 13
  let perKm : ℚ := 2.3
  let perMin : ℚ := 0.5
  let cost0 := baseFare + max 0 (distance / 1000 - 3) * perKm + duration * perMin
  let cost1 := if scenario = "高峰模式" then cost0 * 1.3 else cost0
  let cost2 := if scenario = "深夜模式" then cost1 * 1.5 else cost1
  round1 cost2

/-- `_generateTaxiRoute`: the pure-taxi candidate.  Note that the call to
the cost estimator passes no scenario, so the default routine multiplier
(×1) always applies. -/
def generateTaxiRoute (origin destination : GeoPoint)
    (driving : Option DrivingRoute) : Option Route :=
  match driving with
  | none => none
  | some d =>
    let cost := estimateTaxiCost d.distance d.duration
    some { id := "taxi_full"
           type := "taxi"
           segments := [{ mode := "taxi", «from» := origin.name,
                          «to» := destination.name,
                          distance := some d.distance, duration := d.duration,
                          cost := some cost, waitTime := some 5 }]
           totalDuration := d.duration + 5
           totalCost := cost
           totalDistance := d.distance }

/-- `_generateAllRoutes`: pure subway candidates (type and totals copied
from the transit itinerary), the pure taxi candidate, then the pruned mixed
candidates. -/
def generateAllRoutes (origin destination : GeoPoint)
    (sub : TransitProvider) (drv : DrivingProvider) : List Route :=
  let subwayCands := (sub origin destination).map fun r =>
    { id := r.id, type := "subway", segments := r.segments,
      totalDuration := r.duration, totalCost := r.cost,
      totalDistance := r.distance : Route }
  let taxiCand := (generateTaxiRoute origin destination (drv origin destination)).toList
  let mixed := generateMixedRoutes origin destination stationsAlongRoute sub drv
  subwayCands ++ taxiCand ++ mixed

/-- `_calculateComfortScore`: 100, minus 15 per adjacent subway→subway
transition, minus 5 per full 500 m of walking, minus 2 per minute of taxi
waiting, floored at 0. -/
def calculateComfortScore (route : Route) : ℚ :=
  let transfers : ℕ :=
    (route.segments.zip route.segments.tail).countP
      (fun p => p.1.mode == "subway" && p.2.mode == "subway")
  let walkDistance : ℚ :=
    ((route.segments.filter (fun s => s.mode == "walk")).map
      (fun s => s.distance.getD 0)).sum
  let taxiWait : ℚ :=
    ((route.segments.filter (fun s => s.mode == "taxi")).map
      (fun s => s.waitTime.getD 0)).sum
  max 0 (100 - transfers * 15 - (⌊walkDistance / 500⌋ : ℚ) * 5 - taxiWait * 2)

/-- `_getWeights`: preference-keyed base table (unknown preferences fall
back to balance), replaced wholesale for the rush-to-catch and late-night
scenarios. -/
def getWeights (preference scenario : String) : Weights :=
  let base : Weights :=
    if preference = "time" then ⟨0.7, 0.2, 0.1⟩
    else if preference = "cost" then ⟨0.2, 0.7, 0.1⟩
    else ⟨0.4, 0.4, 0.2⟩
  if scenario = "赶路模式" then ⟨0.8, 0.1, 0.1⟩
  else if scenario = "深夜模式" then ⟨0.4, 0.3, 0.3⟩
  else base

/-- `_generateSummary`. -/
def generateSummary (route : Route) : Summary :=
  let taxiCount := (route.segments.filter (fun s => s.mode == "taxi")).length
  let subwayCount := (route.segments.filter (fun s => s.mode == "subway")).length
  let description :=
    if route.type = "taxi" then "全程打车"
    else if route.type = "subway" then "全程地铁"
    else "打车" ++ toString taxiCount ++ "段 + 地铁" ++ toString subwayCount ++ "段"
  { description := description
    totalTime := route.totalDuration
    totalCost := route.totalCost
    walkDistance := ((route.segments.filter (fun s => s.mode == "walk")).map
      (fun s => s.distance.getD 0)).sum }

/-- The body of the `routes.map` in `_calculateScores`, given the four
extrema of the candidate set. -/
def scoreOne (minTime maxTime minCost maxCost : ℚ)
    (preference scenario : String) (route : Route) : ScoredRoute :=
  let timeScore : ℚ :=
    if maxTime = minTime then 100
    else 100 * (1 - (route.totalDuration - minTime) / (maxTime - minTime))
  let costScore : ℚ :=
    if maxCost = minCost then 100
    else 100 * (1 - (route.totalCost - minCost) / (maxCost - minCost))
  let comfortScore := calculateComfortScore route
  let weights := getWeights preference scenario
  let totalScore :=
    (timeScore * weights.time + costScore * weights.cost
      + comfortScore * weights.comfort) / 100
  { toRoute := route
    scores := { time := jsRound timeScore, cost := jsRound costScore,
                comfort := jsRound comfortScore, total := round1 totalScore }
    summary := generateSummary route }

/-- `_calculateScores`: empty input gives an empty output; otherwise map
`scoreOne` over the candidates with the extrema of the whole set. -/
def calculateScores (routes : List Route) (preference scenario : String) :
    List ScoredRoute :=
  if routes.isEmpty then []
  else
    let minTime := listMin (routes.map Route.totalDuration)
    let maxTime := listMax (routes.map Route.totalDuration)
    let minCost := listMin (routes.map Route.totalCost)
    let maxCost := listMax (routes.map Route.totalCost)
    routes.map (scoreOne minTime maxTime minCost maxCost preference scenario)

/-- `_getRecommendReason`. -/
def getRecommendReason (route : ScoredRoute) (scenario : String) : String :=
  if scenario = "高峰模式" then
    if route.type = "subway" then "高峰期地铁更稳定" else "省时且不堵车"
  else if scenario = "深夜模式" then "安全便捷"
  else if scenario = "赶路模式" then "最快到达"
  else "综合性价比最高"

/-- `_recommend`: stable sorts by duration, cost and descending composite
score; the heads are the fastest/cheapest/recommended selections, annotated
with tags. -/
def recommend (scoredRoutes : List ScoredRoute) (scenario : String) :
    RecResult :=
  match scoredRoutes with
  | [] => ⟨none, none, none⟩
  | r :: rs =>
    let byTime := (r :: rs).mergeSort
      (fun a b => decide (a.totalDuration ≤ b.totalDuration))
    let byCost := (r :: rs).mergeSort
      (fun a b => decide (a.totalCost ≤ b.totalCost))
    let byScore := (r :: rs).mergeSort
      (fun a b => decide (b.scores.total ≤ a.scores.total))
    match byTime, byCost, byScore with
    | tf :: tts, cf :: cts, sf :: _ =>
      let slowest := (tf :: tts).getLast (by simp)
      let priciest := (cf :: cts).getLast (by simp)
      let fastest : TaggedRoute :=
        { toScoredRoute := tf
          tags := ["最快方案",
            "比最慢快" ++ toString (jsRound (slowest.totalDuration - tf.totalDuration))
              ++ "分钟"] }
      let cheapest : TaggedRoute :=
        { toScoredRoute := cf
          tags := ["最省钱",
            "比最贵省¥" ++ toString (jsRound (priciest.totalCost - cf.totalCost))] }
      let recommended : TaggedRoute :=
        { toScoredRoute := sf
          tags := ["推荐方案", getRecommendReason sf scenario] }
      ⟨some recommended, some fastest, some cheapest⟩
    | _, _, _ => ⟨none, none, none⟩

/-- Steps 3–5 of `planRoute`: score the generated candidates, select the
recommendations, and assemble the result (note `allRoutes` is
`scoredRoutes.slice(0, 10)` and `totalCandidates` the pre-truncation
candidate count). -/
def planAssemble (allRoutes : List Route) (preference scenario : String) :
    PlanResult :=
  let scoredRoutes := calculateScores allRoutes preference scenario
  let recommendation := recommend scoredRoutes scenario
  { recommended := recommendation.recommended
    fastest := recommendation.fastest
    cheapest := recommendation.cheapest
    allRoutes := scoredRoutes.take 10
    meta := { scenario := scenario, preference := preference,
              totalCandidates := allRoutes.length } }

/-- `planRoute` end to end: detect the scenario, generate all candidates,
score, recommend and assemble. -/
def planRoute (origin destination : GeoPoint) (hour : ℕ)
    (preference : String) (sub : TransitProvider) (drv : DrivingProvider) :
    PlanResult :=
  let scenario := detectScenario origin destination hour
  let allRoutes := generateAllRoutes origin destination sub drv
  planAssemble allRoutes preference scenario

end RoutePlanner

namespace Handler

/-- The `start`/`end` objects of a request body; any field may be absent. -/
structure EndpointInput where
  lng : Option ℚ := none
  lat : Option ℚ := none
  name : Option String := none
deriving DecidableEq, Repr

/-- A parsed request body (the fields the handler reads). -/
structure ReqBody where
  start : Option EndpointInput := none
  «end» : Option EndpointInput := none
  preference : Option String := none
deriving DecidableEq, Repr

/-- A handler error response. -/
structure HandlerError where
  code : ℕ
  message : String
deriving DecidableEq, Repr

/-- The parameters handed to `planRoute` after validation. -/
structure Params where
  origin : GeoPoint
  destination : GeoPoint
  preference : String
deriving DecidableEq, Repr

/-- The handler's parameter validation and conversion (`if (!start || !end)`
returns a 400 error; otherwise the params are built field by field, with
possibly absent coordinates carried through). -/
def validateAndBuild (body : ReqBody) : Except HandlerError Params :=
  match body.start, body.«end» with
  | some s, some e =>
    .ok { origin := { lng := s.lng, lat := s.lat, name := some (s.name.getD "起点") }
          destination := { lng := e.lng, lat := e.lat, name := some (e.name.getD "终点") }
          preference := body.preference.getD "balance" }
  | _, _ => .error { code := 400, message := "缺少起点或终点参数" }

end Handler

/-! ## Helper lemmas -/

theorem jsRound_mono {x y : ℚ} (h : x ≤ y) : jsRound x ≤ jsRound y :=
  Int.floor_le_floor (by linarith)

theorem round1_mono {x y : ℚ} (h : x ≤ y) : round1 x ≤ round1 y := by
  have h10 : jsRound (x * 10) ≤ jsRound (y * 10) := jsRound_mono (by linarith)
  have : (jsRound (x * 10) : ℚ) ≤ (jsRound (y * 10) : ℚ) := by exact_mod_cast h10
  unfold round1
  linarith

theorem round1_thirteen : round1 13 = 13 := by norm_num [round1, jsRound]

theorem foldl_min_le_init (l : List ℚ) (a : ℚ) : l.foldl min a ≤ a := by
  induction l generalizing a with
  | nil => exact le_refl a
  | cons x xs ih =>
    simp only [List.foldl_cons]
    exact le_trans (ih (min a x)) (min_le_left a x)

theorem foldl_min_le_mem {l : List ℚ} {b : ℚ} (h : b ∈ l) (a : ℚ) :
    l.foldl min a ≤ b := by
  induction l generalizing a with
  | nil => cases h
  | cons x xs ih =>
    simp only [List.foldl_cons]
    rcases List.mem_cons.mp h with rfl | hx
    · exact le_trans (foldl_min_le_init xs (min a b)) (min_le_right a b)
    · exact ih hx (min a x)

theorem listMin_le {l : List ℚ} {a : ℚ} (h : a ∈ l) : listMin l ≤ a := by
  cases l with
  | nil => cases h
  | cons x xs =>
    rcases List.mem_cons.mp h with rfl | hx
    · exact foldl_min_le_init xs a
    · exact foldl_min_le_mem hx x

theorem init_le_foldl_max (l : List ℚ) (a : ℚ) : a ≤ l.foldl max a := by
  induction l generalizing a with
  | nil => exact le_refl a
  | cons x xs ih =>
    simp only [List.foldl_cons]
    exact le_trans (le_max_left a x) (ih (max a x))

theorem mem_le_foldl_max {l : List ℚ} {b : ℚ} (h : b ∈ l) (a : ℚ) :
    b ≤ l.foldl max a := by
  induction l generalizing a with
  | nil => cases h
  | cons x xs ih =>
    simp only [List.foldl_cons]
    rcases List.mem_cons.mp h with rfl | hx
    · exact le_trans (le_max_right a b) (init_le_foldl_max xs (max a b))
    · exact ih hx (max a x)

theorem le_listMax {l : List ℚ} {a : ℚ} (h : a ∈ l) : a ≤ listMax l := by
  cases l with
  | nil => cases h
  | cons x xs =>
    rcases List.mem_cons.mp h with rfl | hx
    · exact init_le_foldl_max xs a
    · exact mem_le_foldl_max hx x

/-! ## Concrete inputs used by counterexamples and witnesses -/

/-- The §8 end-to-end origin `{lng:116.4107, lat:39.5097, name:"Airport"}`. -/
def airportPoint : GeoPoint :=
  { lng := some (116.4107 : ℚ), lat := some (39.5097 : ℚ), name := some "Airport" }

/-- The §8 end-to-end destination
`{lng:116.2937, lat:40.0723, name:"ResidentialArea"}`. -/
def residentialPoint : GeoPoint :=
  { lng := some (116.2937 : ℚ), lat := some (40.0723 : ℚ), name := some "ResidentialArea" }

/-! ## C9 -/

/-- C9: when candidate generation yields zero candidates, `planRoute`'s
scoring/recommendation/assembly stages return a normal result with
`recommended = fastest = cheapest = null`, `allRoutes = []` and
`meta.totalCandidates = 0`. -/
theorem planAssemble_empty (o d : GeoPoint) (hour : ℕ) (preference scenario : String) :
    RoutePlanner.planAssemble [] preference scenario
      = { recommended := none, fastest := none, cheapest := none,
          allRoutes := [],
          meta := { scenario := scenario, preference := preference,
                    totalCandidates := 0 } } ∧
    RoutePlanner.planRoute o d hour preference (fun _ _ => []) (fun _ _ => none)
      = { recommended := none, fastest := none, cheapest := none,
          allRoutes := [],
          meta := { scenario := RoutePlanner.detectScenario o d hour,
                    preference := preference, totalCandidates := 0 } } := by
  refine ⟨rfl, ?_⟩
  have hg : RoutePlanner.generateAllRoutes o d (fun _ _ => []) (fun _ _ => none) = [] := by
    simp [RoutePlanner.generateAllRoutes, RoutePlanner.generateTaxiRoute,
      MixedRouteGenerator.generateMixedRoutes,
      MixedRouteGenerator.generateStartTaxiRoutes,
      MixedRouteGenerator.generateEndTaxiRoutes,
      MixedRouteGenerator.generateBothTaxiRoutes,
      MixedRouteGenerator.pruneRoutes, MixedRouteGenerator.stationsAlongRoute]
  show RoutePlanner.planAssemble
    (RoutePlanner.generateAllRoutes o d (fun _ _ => []) (fun _ _ => none))
    preference (RoutePlanner.detectScenario o d hour) = _
  rw [hg]
  rfl

/-! ## C10 -/

/-- C10: with a destination whose `name` is absent, scenario detection does
not fail: the hub check is skipped and the scenario follows the
late-night/peak/routine hour rules alone; the full `planRoute` pipeline
proceeds and records that scenario. -/
theorem detectScenario_missing_name (origin : GeoPoint) (lng lat : Option ℚ)
    (hour : ℕ) (preference : String)
    (sub : MixedRouteGenerator.TransitProvider)
    (drv : MixedRouteGenerator.DrivingProvider) :
    RoutePlanner.detectScenario origin { lng := lng, lat := lat, name := none } hour
      = (if 23 ≤ hour ∨ hour < 5 then "深夜模式"
         else if (7 ≤ hour ∧ hour ≤ 9) ∨ (17 ≤ hour ∧ hour ≤ 19) then "高峰模式"
         else "日常模式") ∧
    RoutePlanner.detectScenario origin { lng := lng, lat := lat, name := none } hour
      ≠ "赶路模式" ∧
    (RoutePlanner.planRoute origin { lng := lng, lat := lat, name := none }
        hour preference sub drv).meta.scenario
      = RoutePlanner.detectScenario origin { lng := lng, lat := lat, name := none } hour := by
  refine ⟨rfl, ?_, rfl⟩
  simp only [RoutePlanner.detectScenario, RoutePlanner.hasHubKeyword,
    Bool.false_eq_true, if_false]
  split_ifs <;> simp

/-! ## C8 -/

/-- A request body whose `start` object is present but carries no
coordinates. -/
def missingCoordsBody : Handler.ReqBody :=
  { start := some { name := some "甲" },
    «end» := some { lng := some 116, lat := some 40, name := some "乙" } }

/-- C8 counterexample: a request whose origin is malformed (present but
missing both coordinates) is NOT rejected: validation returns `ok` and the
planning pipeline (with its provider calls) proceeds on the
coordinate-less origin. -/
theorem validate_missing_coords_counterexample :
    Handler.validateAndBuild missingCoordsBody
      = Except.ok { origin := { lng := none, lat := none, name := some "甲" },
                    destination := { lng := some 116, lat := some 40, name := some "乙" },
                    preference := "balance" } := rfl

/-- C8 amended: the handler fails fast with the distinct 400 error kind
(separate from the 500 processing/provider failures) exactly when the
`start` or `end` object is wholly missing; a present origin or destination
lacking coordinates passes validation and planning proceeds. -/
theorem validate_error_iff (body : Handler.ReqBody) :
    (Handler.validateAndBuild body
        = Except.error { code := 400, message := "缺少起点或终点参数" }
      ↔ (body.start = none ∨ body.«end» = none)) ∧
    ((∃ p, Handler.validateAndBuild body = Except.ok p)
      ↔ (body.start ≠ none ∧ body.«end» ≠ none)) := by
  obtain ⟨s, e, p⟩ := body
  cases s <;> cases e <;> simp [Handler.validateAndBuild]

/-! ## C7 -/

/-- C7 counterexample: with zero distance and a negative duration the
estimators return −7, below the base fare 13 and below zero: the claimed
base-fare floor and nonnegativity both fail for negative durations. -/
theorem estimateTaxiCost_negative_counterexample :
    MixedRouteGenerator.estimateTaxiCost 0 (-40) = -7 ∧
    RoutePlanner.estimateTaxiCost 0 (-40) "日常模式" = -7 ∧
    ¬(13 ≤ (-7 : ℚ)) ∧ (-7 : ℚ) < 0 := by
  refine ⟨?_, ?_, by norm_num, by norm_num⟩
  · simp only [MixedRouteGenerator.estimateTaxiCost]
    norm_num [round1, jsRound, max_def]
  · simp [RoutePlanner.estimateTaxiCost]
    norm_num [round1, jsRound, max_def]

/-- C7 amended: with zero or negative distance and NONNEGATIVE duration,
both estimators are floored at the base fare 13 (hence nonnegative), with
equality at zero duration; the floor does not extend to negative
durations (see the counterexample). -/
theorem estimateTaxiCost_base_floor (d t : ℚ) (scen : String)
    (hd : d ≤ 0) (ht : 0 ≤ t) :
    13 ≤ MixedRouteGenerator.estimateTaxiCost d t ∧
    0 ≤ MixedRouteGenerator.estimateTaxiCost d t ∧
    (t = 0 → MixedRouteGenerator.estimateTaxiCost d t = 13) ∧
    13 ≤ RoutePlanner.estimateTaxiCost d t scen ∧
    (t = 0 → RoutePlanner.estimateTaxiCost d t "日常模式" = 13) := by
  have hdiv : d / 1000 ≤ 0 := div_nonpos_iff.mpr (Or.inr ⟨hd, by norm_num⟩)
  have hmax : max 0 (d / 1000 - 3) = 0 := max_eq_left (by linarith)
  have hbase : (13 : ℚ) ≤ 13 + max 0 (d / 1000 - 3) * 2.3 + t * 0.5 := by
    rw [hmax]; linarith
  have h13 : (13 : ℚ) ≤ MixedRouteGenerator.estimateTaxiCost d t := by
    simp only [MixedRouteGenerator.estimateTaxiCost]
    calc (13 : ℚ) = round1 13 := round1_thirteen.symm
    _ ≤ _ := round1_mono (by rw [hmax]; linarith)
  refine ⟨h13, by linarith, ?_, ?_, ?_⟩
  · intro ht0
    simp only [MixedRouteGenerator.estimateTaxiCost, hmax, ht0]
    norm_num [round1, jsRound]
  · simp only [RoutePlanner.estimateTaxiCost]
    have h1 : (13 : ℚ) ≤
        (if scen = "高峰模式"
         then (13 + max 0 (d / 1000 - 3) * 2.3 + t * 0.5) * 1.3
         else 13 + max 0 (d / 1000 - 3) * 2.3 + t * 0.5) := by
      split_ifs <;> nlinarith [hbase]
    have h2 : (13 : ℚ) ≤ round1
        (if scen = "深夜模式"
         then (if scen = "高峰模式"
               then (13 + max 0 (d / 1000 - 3) * 2.3 + t * 0.5) * 1.3
               else 13 + max 0 (d / 1000 - 3) * 2.3 + t * 0.5) * 1.5
         else (if scen = "高峰模式"
               then (13 + max 0 (d / 1000 - 3) * 2.3 + t * 0.5) * 1.3
               else 13 + max 0 (d / 1000 - 3) * 2.3 + t * 0.5)) := by
      calc (13 : ℚ) = round1 13 := round1_thirteen.symm
      _ ≤ _ := round1_mono (by split_ifs <;> nlinarith [hbase])
    exact h2
  · intro ht0
    simp [RoutePlanner.estimateTaxiCost, hmax, ht0]
    norm_num [round1, jsRound]

/-- C7 witness: the amended floor at distance 0 and duration 0 (both
estimators give exactly the base fare 13). -/
theorem estimateTaxiCost_base_floor_witness :
    (0 : ℚ) ≤ 0 ∧
    (13 ≤ MixedRouteGenerator.estimateTaxiCost 0 0 ∧
     0 ≤ MixedRouteGenerator.estimateTaxiCost 0 0 ∧
     ((0 : ℚ) = 0 → MixedRouteGenerator.estimateTaxiCost 0 0 = 13) ∧
     13 ≤ RoutePlanner.estimateTaxiCost 0 0 "深夜模式" ∧
     ((0 : ℚ) = 0 → RoutePlanner.estimateTaxiCost 0 0 "日常模式" = 13)) :=
  ⟨le_refl 0, estimateTaxiCost_base_floor 0 0 "深夜模式" (le_refl 0) (le_refl 0)⟩

/-! ## C1 -/

/-- C1 counterexample: in the §8 end-to-end example (52000 m, 78 min,
detected scenario peak) the `taxi_full` candidate's totalCost is 164.7, not
≈215.4: `_generateTaxiRoute` never forwards the scenario, and even the
peak-multiplied formula yields 214.1, not 215.4. -/
theorem taxiFull_peak_cost_counterexample :
    RoutePlanner.detectScenario airportPoint residentialPoint 18 = "高峰模式" ∧
    (RoutePlanner.generateTaxiRoute airportPoint residentialPoint
        (some AmapService.mockDrivingRoute)).map Route.totalCost = some (1647/10) ∧
    RoutePlanner.estimateTaxiCost 52000 78 "高峰模式" = 2141/10 ∧
    (1647/10 : ℚ) ≠ 2141/10 ∧
    ¬(|(1647/10 : ℚ) - 2154/10| ≤ 1) ∧ ¬(|(2141/10 : ℚ) - 2154/10| ≤ 1) := by
  refine ⟨rfl, ?_, ?_, by norm_num, by rw [abs_le]; norm_num, by rw [abs_le]; norm_num⟩
  · simp [RoutePlanner.generateTaxiRoute, AmapService.mockDrivingRoute,
      RoutePlanner.estimateTaxiCost]
    norm_num [round1, jsRound, max_def]
  · simp [RoutePlanner.estimateTaxiCost]
    norm_num [round1, jsRound, max_def]

/-- C1 amended: every call of the estimator returns
`round1((13 + max(0, d/1000 − 3)·2.3 + t·0.5) · m)` with `m` = 1.3 for
peak, 1.5 for late night and 1 otherwise — but `_generateTaxiRoute` calls
it without a scenario, so the `taxi_full` candidate always gets the
routine multiplier, and in the §8 example its totalCost is 164.7. -/
theorem estimateTaxiCost_scenario_formula (d t : ℚ) (scen : String)
    (o dst : GeoPoint) (drv : DrivingRoute) :
    RoutePlanner.estimateTaxiCost d t scen
      = round1 ((13 + max 0 (d / 1000 - 3) * 2.3 + t * 0.5) *
          (if scen = "高峰模式" then 1.3
           else if scen = "深夜模式" then 1.5 else 1)) ∧
    (RoutePlanner.generateTaxiRoute o dst (some drv)).map Route.totalCost
      = some (RoutePlanner.estimateTaxiCost drv.distance drv.duration "日常模式") ∧
    (RoutePlanner.generateTaxiRoute o dst (some drv)).map Route.totalDuration
      = some (drv.duration + 5) ∧
    (RoutePlanner.generateTaxiRoute airportPoint residentialPoint
        (some AmapService.mockDrivingRoute)).map Route.totalCost = some (1647/10) := by
  refine ⟨?_, rfl, rfl, ?_⟩
  · by_cases h1 : scen = "高峰模式"
    · have h2 : ¬ scen = "深夜模式" := by subst h1; simp
      simp [RoutePlanner.estimateTaxiCost, h1, h2]
    · by_cases h2 : scen = "深夜模式"
      · simp [RoutePlanner.estimateTaxiCost, h1, h2]
      · simp [RoutePlanner.estimateTaxiCost, h1, h2]
  · simp [RoutePlanner.generateTaxiRoute, AmapService.mockDrivingRoute,
      RoutePlanner.estimateTaxiCost]
    norm_num [round1, jsRound, max_def]

/-! ## C6 -/

/-- C6: scenario detection yields exactly one label, characterized by:
rush-to-catch iff the destination name contains a hub keyword (regardless
of the hour); otherwise late night iff hour ∈ [23,24) ∪ [0,5); otherwise
peak iff hour ∈ [7,9] ∪ [17,19]; otherwise routine. -/
theorem detectScenario_classification (origin destination : GeoPoint)
    (hour : ℕ) (h24 : hour < 24) :
    (RoutePlanner.detectScenario origin destination hour = "赶路模式"
       ↔ RoutePlanner.hasHubKeyword destination.name = true) ∧
    (RoutePlanner.detectScenario origin destination hour = "深夜模式"
       ↔ RoutePlanner.hasHubKeyword destination.name = false ∧
           ((23 ≤ hour ∧ hour < 24) ∨ hour < 5)) ∧
    (RoutePlanner.detectScenario origin destination hour = "高峰模式"
       ↔ RoutePlanner.hasHubKeyword destination.name = false ∧
           ¬(23 ≤ hour ∨ hour < 5) ∧
           ((7 ≤ hour ∧ hour ≤ 9) ∨ (17 ≤ hour ∧ hour ≤ 19))) ∧
    (RoutePlanner.detectScenario origin destination hour = "日常模式"
       ↔ RoutePlanner.hasHubKeyword destination.name = false ∧
           ¬(23 ≤ hour ∨ hour < 5) ∧
           ¬((7 ≤ hour ∧ hour ≤ 9) ∨ (17 ≤ hour ∧ hour ≤ 19))) := by
  cases hhub : RoutePlanner.hasHubKeyword destination.name
  · simp only [RoutePlanner.detectScenario, hhub, Bool.false_eq_true, if_false]
    split_ifs with h1 h2 <;> simp_all
  · simp [RoutePlanner.detectScenario, hhub]

/-- C6 witness: a hub destination (name containing 机场) at hour 23 is
classified rush-to-catch, not late-night. -/
theorem detectScenario_classification_witness :
    23 < 24 ∧
    RoutePlanner.detectScenario { lng := none, lat := none, name := none }
      { lng := none, lat := none, name := some "首都国际机场" } 23 = "赶路模式" :=
  ⟨by norm_num,
   (detectScenario_classification { lng := none, lat := none, name := none }
      { lng := none, lat := none, name := some "首都国际机场" } 23
      (by norm_num)).1.mpr rfl⟩

/-! ## C4 -/

/-- C4: pruning keeps exactly the candidates whose taxi segments all exceed
2000 m (the survivors are a permutation-sort of that filter), sorts them
ascending by `totalDuration + 2·totalCost` (stably), and truncates to at
most 10. -/
theorem pruneRoutes_spec (routes : List Route) :
    ∃ s : List Route,
      s.Perm (routes.filter MixedRouteGenerator.keepRoute) ∧
      s.Pairwise (fun a b =>
        MixedRouteGenerator.pruneScore a ≤ MixedRouteGenerator.pruneScore b) ∧
      MixedRouteGenerator.pruneRoutes routes = s.take 10 ∧
      (MixedRouteGenerator.pruneRoutes routes).length ≤ 10 ∧
      (∀ r : Route, MixedRouteGenerator.keepRoute r = true ↔
        ∀ seg ∈ r.segments, seg.mode = "taxi" → 2000 < seg.distance.getD 0) ∧
      (∀ r ∈ MixedRouteGenerator.pruneRoutes routes,
        MixedRouteGenerator.keepRoute r = true) := by
  refine ⟨(routes.filter MixedRouteGenerator.keepRoute).mergeSort
      (fun a b =>
        decide (MixedRouteGenerator.pruneScore a ≤ MixedRouteGenerator.pruneScore b)),
    List.mergeSort_perm _ _, ?_, rfl, ?_, ?_, ?_⟩
  · have h := @List.sorted_mergeSort Route
      (fun a b : Route =>
        decide (MixedRouteGenerator.pruneScore a ≤ MixedRouteGenerator.pruneScore b))
      (fun a b c hab hbc => by
        simp only [decide_eq_true_eq] at *
        exact le_trans hab hbc)
      (fun a b => by
        simp only [Bool.or_eq_true, decide_eq_true_eq]
        exact le_total _ _)
      (routes.filter MixedRouteGenerator.keepRoute)
    exact h.imp (fun hab => by simpa using hab)
  · exact List.length_take_le 10 _
  · intro r
    simp only [MixedRouteGenerator.keepRoute, List.all_eq_true, List.mem_filter,
      and_imp, decide_eq_true_eq, beq_iff_eq]
  · intro r hr
    have h1 : r ∈ (routes.filter MixedRouteGenerator.keepRoute).mergeSort
        (fun a b =>
          decide (MixedRouteGenerator.pruneScore a ≤ MixedRouteGenerator.pruneScore b)) :=
      List.mem_of_mem_take hr
    exact (List.mem_filter.mp (List.mem_mergeSort.mp h1)).2

/-! ## C2 -/

/-- `_calculateScores` preserves the candidate count. -/
theorem calculateScores_length (routes : List Route) (preference scenario : String) :
    (RoutePlanner.calculateScores routes preference scenario).length = routes.length := by
  unfold RoutePlanner.calculateScores
  split
  · next h => simp [List.isEmpty_iff.mp h]
  · simp

/-- `_calculateScores` scores each candidate in place: the i-th scored
candidate is the i-th input candidate. -/
theorem calculateScores_getElem (routes : List Route) (preference scenario : String)
    (i : ℕ) :
    ((RoutePlanner.calculateScores routes preference scenario)[i]?).map
      ScoredRoute.toRoute = routes[i]? := by
  unfold RoutePlanner.calculateScores
  split
  · next h => simp [List.isEmpty_iff.mp h]
  · rw [List.getElem?_map]
    cases h : routes[i]? <;> simp [h, RoutePlanner.scoreOne]

/-- A slow, expensive candidate (scores low on time and cost). -/
def slowRoute : Route :=
  { id := "slow", type := "subway", segments := [],
    totalDuration := 100, totalCost := 100, totalDistance := 10000 }

/-- A fast, cheap candidate (scores 100 on time and cost). -/
def fastRoute : Route :=
  { id := "fast", type := "subway", segments := [],
    totalDuration := 10, totalCost := 10, totalDistance := 1000 }

/-- C2 counterexample: with candidates generated in the order
[slow, fast] the result's `allRoutes` is [slow, fast] with composite
scores [0.2, 1.0] — not ordered by descending `scores.total`, because
`planRoute` slices the UNSORTED scored list. -/
theorem allRoutes_not_sorted_counterexample :
    ((RoutePlanner.planAssemble [slowRoute, fastRoute] "balance" "日常模式").allRoutes.map
        (fun sc => sc.scores.total)) = [1/5, 1] ∧
    ¬ ((RoutePlanner.planAssemble [slowRoute, fastRoute] "balance" "日常模式").allRoutes.Pairwise
        (fun a b => b.scores.total ≤ a.scores.total)) := by
  have hval : ((RoutePlanner.planAssemble [slowRoute, fastRoute] "balance" "日常模式").allRoutes.map
      (fun sc => sc.scores.total)) = [1/5, 1] := by
    simp [RoutePlanner.planAssemble, RoutePlanner.calculateScores, RoutePlanner.scoreOne,
      RoutePlanner.calculateComfortScore, RoutePlanner.getWeights,
      RoutePlanner.generateSummary, listMin, listMax, slowRoute, fastRoute]
    norm_num [round1, jsRound]
  refine ⟨hval, fun hpair => ?_⟩
  cases hl : (RoutePlanner.planAssemble [slowRoute, fastRoute] "balance" "日常模式").allRoutes with
  | nil => rw [hl] at hval; simp at hval
  | cons a t =>
    cases t with
    | nil => rw [hl] at hval; simp at hval
    | cons b t2 =>
      cases t2 with
      | cons c t3 => rw [hl] at hval; simp at hval
      | nil =>
        rw [hl] at hval hpair
        simp only [List.map_cons, List.map_nil, List.cons.injEq, and_true] at hval
        obtain ⟨ha, hb⟩ := hval
        have h01 := (List.pairwise_cons.mp hpair).1 b (List.mem_singleton.mpr rfl)
        rw [ha, hb] at h01
        norm_num at h01

/-- C2 amended: `allRoutes` is the scored candidate list truncated to the
FIRST 10 in generation order (each entry scoring the corresponding
generated candidate in place); composite score plays no role in the
truncation or the order. -/
theorem planAssemble_allRoutes_prefix (routes : List Route)
    (preference scenario : String) (i : ℕ) :
    (RoutePlanner.planAssemble routes preference scenario).allRoutes.length
      = min routes.length 10 ∧
    ((RoutePlanner.planAssemble routes preference scenario).allRoutes[i]?).map
      ScoredRoute.toRoute = (if i < 10 then routes[i]? else none) := by
  constructor
  · show ((RoutePlanner.calculateScores routes preference scenario).take 10).length
      = min routes.length 10
    rw [List.length_take, calculateScores_length, Nat.min_comm]
  · show (((RoutePlanner.calculateScores routes preference scenario).take 10)[i]?).map
      ScoredRoute.toRoute = (if i < 10 then routes[i]? else none)
    by_cases h : i < 10
    · rw [List.getElem?_take_of_lt h, if_pos h]
      exact calculateScores_getElem routes preference scenario i
    · have hlen : ((RoutePlanner.calculateScores routes preference scenario).take 10).length ≤ i := by
        calc ((RoutePlanner.calculateScores routes preference scenario).take 10).length
            ≤ 10 := List.length_take_le 10 _
        _ ≤ i := Nat.le_of_not_lt h
      rw [List.getElem?_eq_none hlen, if_neg h]
      rfl

/-! ## C5 -/

/-- Lower and upper bounds of a normalized axis score. -/
theorem axisScore_bounds (mn mx v : ℚ) (h1 : mn ≤ v) (h2 : v ≤ mx) :
    0 ≤ jsRound (if mx = mn then (100 : ℚ) else 100 * (1 - (v - mn) / (mx - mn))) ∧
    jsRound (if mx = mn then (100 : ℚ) else 100 * (1 - (v - mn) / (mx - mn))) ≤ 100 := by
  split_ifs with h
  · constructor <;> norm_num [jsRound]
  · have hlt : mn < mx := lt_of_le_of_ne (h1.trans h2) (fun e => h e.symm)
    have hpos : 0 < mx - mn := by linarith
    have ht0 : 0 ≤ (v - mn) / (mx - mn) := div_nonneg (by linarith) hpos.le
    have ht1 : (v - mn) / (mx - mn) ≤ 1 := (div_le_one hpos).mpr (by linarith)
    constructor
    · have hs : (0 : ℚ) ≤ 100 * (1 - (v - mn) / (mx - mn)) := by nlinarith
      calc (0 : ℤ) = jsRound 0 := by norm_num [jsRound]
      _ ≤ _ := jsRound_mono hs
    · have hs : 100 * (1 - (v - mn) / (mx - mn)) ≤ (100 : ℚ) := by nlinarith
      calc jsRound (100 * (1 - (v - mn) / (mx - mn))) ≤ jsRound 100 := jsRound_mono hs
      _ = 100 := by norm_num [jsRound]

/-- A minimum-valued candidate scores 100 on its axis. -/
theorem axisScore_min (mn mx v : ℚ) (h : v = mn) :
    jsRound (if mx = mn then (100 : ℚ) else 100 * (1 - (v - mn) / (mx - mn))) = 100 := by
  subst h
  split_ifs with hx
  · norm_num [jsRound]
  · rw [sub_self, zero_div]
    norm_num [jsRound]

/-- When the extrema differ, a maximum-valued candidate scores 0. -/
theorem axisScore_max (mn mx v : ℚ) (hne : ¬ mx = mn) (h : v = mx) :
    jsRound (if mx = mn then (100 : ℚ) else 100 * (1 - (v - mn) / (mx - mn))) = 0 := by
  subst h
  rw [if_neg hne, div_self (sub_ne_zero_of_ne hne)]
  norm_num [jsRound]

/-- When all candidates tie on an axis, everyone scores 100. -/
theorem axisScore_tie (mn mx v : ℚ) (h : mx = mn) :
    jsRound (if mx = mn then (100 : ℚ) else 100 * (1 - (v - mn) / (mx - mn))) = 100 := by
  rw [if_pos h]
  norm_num [jsRound]

/-- On a nonempty input, `_calculateScores` is the map of `scoreOne` at the
set's extrema. -/
theorem calculateScores_eq_map (routes : List Route) (preference scenario : String)
    (h : routes ≠ []) :
    RoutePlanner.calculateScores routes preference scenario
      = routes.map (RoutePlanner.scoreOne
          (listMin (routes.map Route.totalDuration))
          (listMax (routes.map Route.totalDuration))
          (listMin (routes.map Route.totalCost))
          (listMax (routes.map Route.totalCost)) preference scenario) := by
  unfold RoutePlanner.calculateScores
  rw [if_neg (by simpa [List.isEmpty_iff] using h)]

/-- C5: in every nonempty scored set, any candidate achieving the minimum
raw duration (resp. cost) scores 100 on the time (resp. cost) axis, any
candidate achieving the maximum scores 0 unless all raw values coincide
(in which case everyone scores 100), and both axis scores always lie in
[0, 100]. -/
theorem calculateScores_normalization (routes : List Route)
    (preference scenario : String) (i : ℕ) (r : Route)
    (hr : routes[i]? = some r) :
    ∃ sc : ScoredRoute,
      (RoutePlanner.calculateScores routes preference scenario)[i]? = some sc ∧
      0 ≤ sc.scores.time ∧ sc.scores.time ≤ 100 ∧
      0 ≤ sc.scores.cost ∧ sc.scores.cost ≤ 100 ∧
      (r.totalDuration = listMin (routes.map Route.totalDuration) →
        sc.scores.time = 100) ∧
      (listMin (routes.map Route.totalDuration)
          = listMax (routes.map Route.totalDuration) → sc.scores.time = 100) ∧
      (¬ listMin (routes.map Route.totalDuration)
          = listMax (routes.map Route.totalDuration) →
        r.totalDuration = listMax (routes.map Route.totalDuration) →
        sc.scores.time = 0) ∧
      (r.totalCost = listMin (routes.map Route.totalCost) → sc.scores.cost = 100) ∧
      (listMin (routes.map Route.totalCost)
          = listMax (routes.map Route.totalCost) → sc.scores.cost = 100) ∧
      (¬ listMin (routes.map Route.totalCost) = listMax (routes.map Route.totalCost) →
        r.totalCost = listMax (routes.map Route.totalCost) → sc.scores.cost = 0) := by
  have hmem : r ∈ routes := List.getElem?_mem hr
  have hne : routes ≠ [] := by
    intro e
    subst e
    simp at hr
  have hdmem : r.totalDuration ∈ routes.map Route.totalDuration :=
    List.mem_map_of_mem Route.totalDuration hmem
  have hcmem : r.totalCost ∈ routes.map Route.totalCost :=
    List.mem_map_of_mem Route.totalCost hmem
  have hd1 := listMin_le hdmem
  have hd2 := le_listMax hdmem
  have hc1 := listMin_le hcmem
  have hc2 := le_listMax hcmem
  rw [calculateScores_eq_map routes preference scenario hne, List.getElem?_map, hr]
  refine ⟨_, rfl, ?_, ?_, ?_, ?_, ?_, ?_, ?_, ?_, ?_, ?_⟩ <;>
    simp only [RoutePlanner.scoreOne]
  · exact (axisScore_bounds _ _ _ hd1 hd2).1
  · exact (axisScore_bounds _ _ _ hd1 hd2).2
  · exact (axisScore_bounds _ _ _ hc1 hc2).1
  · exact (axisScore_bounds _ _ _ hc1 hc2).2
  · intro h
    exact axisScore_min _ _ _ h
  · intro h
    exact axisScore_tie _ _ _ h.symm
  · intro hne2 h
    exact axisScore_max _ _ _ (fun e => hne2 e.symm) h
  · intro h
    exact axisScore_min _ _ _ h
  · intro h
    exact axisScore_tie _ _ _ h.symm
  · intro hne2 h
    exact axisScore_max _ _ _ (fun e => hne2 e.symm) h

/-- C5 witness: the normalization properties instantiated at the concrete
two-candidate set `[slowRoute, fastRoute]` and its first candidate. -/
theorem calculateScores_normalization_witness :
    ([slowRoute, fastRoute] : List Route)[0]? = some slowRoute ∧
    (∃ sc : ScoredRoute,
      (RoutePlanner.calculateScores [slowRoute, fastRoute] "balance" "日常模式")[0]?
        = some sc ∧
      0 ≤ sc.scores.time ∧ sc.scores.time ≤ 100 ∧
      0 ≤ sc.scores.cost ∧ sc.scores.cost ≤ 100 ∧
      (slowRoute.totalDuration
          = listMin ([slowRoute, fastRoute].map Route.totalDuration) →
        sc.scores.time = 100) ∧
      (listMin ([slowRoute, fastRoute].map Route.totalDuration)
          = listMax ([slowRoute, fastRoute].map Route.totalDuration) →
        sc.scores.time = 100) ∧
      (¬ listMin ([slowRoute, fastRoute].map Route.totalDuration)
          = listMax ([slowRoute, fastRoute].map Route.totalDuration) →
        slowRoute.totalDuration
          = listMax ([slowRoute, fastRoute].map Route.totalDuration) →
        sc.scores.time = 0) ∧
      (slowRoute.totalCost = listMin ([slowRoute, fastRoute].map Route.totalCost) →
        sc.scores.cost = 100) ∧
      (listMin ([slowRoute, fastRoute].map Route.totalCost)
          = listMax ([slowRoute, fastRoute].map Route.totalCost) →
        sc.scores.cost = 100) ∧
      (¬ listMin ([slowRoute, fastRoute].map Route.totalCost)
          = listMax ([slowRoute, fastRoute].map Route.totalCost) →
        slowRoute.totalCost = listMax ([slowRoute, fastRoute].map Route.totalCost) →
        sc.scores.cost = 0)) :=
  ⟨rfl, calculateScores_normalization [slowRoute, fastRoute] "balance" "日常模式"
    0 slowRoute rfl⟩

/-! ## C3 -/

/-- C3 counterexample: the `taxi_full` candidate generated from the mock
driving estimate has totalDuration 83 but segment durations summing to 78
(off by the 5-minute wait, beyond one rounding step), and the pure-subway
candidate generated from the mock transit itinerary has totalDuration 65
while its segments sum to 75. -/
theorem totals_segment_sum_counterexample :
    (RoutePlanner.generateTaxiRoute airportPoint residentialPoint
        (some AmapService.mockDrivingRoute)).map
      (fun r => (r.totalDuration, durationSum r.segments)) = some (83, 78) ∧
    ¬(|(83 : ℚ) - 78| ≤ 1) ∧
    (RoutePlanner.generateAllRoutes airportPoint residentialPoint
        (fun _ _ => [AmapService.mockSubwayRoute]) (fun _ _ => none)).map
      (fun r => (r.totalDuration, durationSum r.segments)) = [(65, 75)] ∧
    ¬(|(65 : ℚ) - 75| ≤ 1) := by
  refine ⟨?_, by rw [abs_le]; norm_num, ?_, by rw [abs_le]; norm_num⟩
  · simp [RoutePlanner.generateTaxiRoute, AmapService.mockDrivingRoute, durationSum]
    norm_num
  · simp [RoutePlanner.generateAllRoutes, RoutePlanner.generateTaxiRoute,
      MixedRouteGenerator.generateMixedRoutes,
      MixedRouteGenerator.generateStartTaxiRoutes,
      MixedRouteGenerator.generateEndTaxiRoutes,
      MixedRouteGenerator.generateBothTaxiRoutes,
      MixedRouteGenerator.pruneRoutes, MixedRouteGenerator.stationsAlongRoute,
      durationSum, AmapService.mockSubwayRoute]
    norm_num

/-- C3 amended: totals compose from component-level figures rather than
flattened segment sums.  The pure-taxi candidate's totalCost and
totalDistance equal its segment sums exactly while totalDuration exceeds
them by the 5-minute wait; every hybrid candidate of the three strategies
inherits, on each axis, exactly its transit itinerary's own
top-level-versus-segment-sum discrepancy (so the claimed invariant holds
there if and only if the provider's top-level figures match its flattened
segments). -/
theorem totals_component_composition
    (o dst : GeoPoint) (drv : DrivingRoute) (stations : List GeoPoint)
    (sub : MixedRouteGenerator.TransitProvider)
    (drvp : MixedRouteGenerator.DrivingProvider) :
    ((RoutePlanner.generateTaxiRoute o dst (some drv)).map
        (fun r => (r.totalDuration - durationSum r.segments,
                   r.totalCost - costSum r.segments,
                   r.totalDistance - distanceSum r.segments)) = some (5, 0, 0)) ∧
    (∀ r ∈ MixedRouteGenerator.generateStartTaxiRoutes o dst stations sub drvp,
      ∃ st s tl, st ∈ stations.take 5 ∧ sub st dst = s :: tl ∧
        r.totalDuration - durationSum r.segments
          = s.duration - durationSum s.segments ∧
        r.totalCost - costSum r.segments = s.cost - costSum s.segments ∧
        r.totalDistance - distanceSum r.segments
          = s.distance - distanceSum s.segments) ∧
    (∀ r ∈ MixedRouteGenerator.generateEndTaxiRoutes o dst stations sub drvp,
      ∃ st s tl, st ∈ stations.drop (stations.length - 5) ∧ sub o st = s :: tl ∧
        r.totalDuration - durationSum r.segments
          = s.duration - durationSum s.segments ∧
        r.totalCost - costSum r.segments = s.cost - costSum s.segments ∧
        r.totalDistance - distanceSum r.segments
          = s.distance - distanceSum s.segments) ∧
    (∀ r ∈ MixedRouteGenerator.generateBothTaxiRoutes o dst stations sub drvp,
      ∃ st1 st2 s tl, st1 ∈ stations.take 2 ∧
        st2 ∈ stations.drop (stations.length - 2) ∧ sub st1 st2 = s :: tl ∧
        r.totalDuration - durationSum r.segments
          = s.duration - durationSum s.segments ∧
        r.totalCost - costSum r.segments = s.cost - costSum s.segments ∧
        r.totalDistance - distanceSum r.segments
          = s.distance - distanceSum s.segments) := by
  refine ⟨?_, ?_, ?_, ?_⟩
  · simp [RoutePlanner.generateTaxiRoute, durationSum, costSum, distanceSum]
  · intro r hr
    rw [MixedRouteGenerator.generateStartTaxiRoutes, List.mem_filterMap] at hr
    obtain ⟨st, hst, heq⟩ := hr
    cases hdrv : drvp o st with
    | none => rw [hdrv] at heq; simp at heq
    | some d =>
      rw [hdrv] at heq
      cases hsub : sub st dst with
      | nil => rw [hsub] at heq; simp at heq
      | cons s tl =>
        rw [hsub] at heq
        simp only [Option.some.injEq] at heq
        subst heq
        refine ⟨st, s, tl, hst, hsub, ?_, ?_, ?_⟩ <;>
          simp [durationSum, costSum, distanceSum,
            MixedRouteGenerator.calculateTaxiSegment]
  · intro r hr
    rw [MixedRouteGenerator.generateEndTaxiRoutes, List.mem_filterMap] at hr
    obtain ⟨st, hst, heq⟩ := hr
    cases hsub : sub o st with
    | nil => rw [hsub] at heq; simp at heq
    | cons s tl =>
      rw [hsub] at heq
      cases hdrv : drvp st dst with
      | none => rw [hdrv] at heq; simp at heq
      | some d =>
        rw [hdrv] at heq
        simp only [Option.some.injEq] at heq
        subst heq
        refine ⟨st, s, tl, hst, hsub, ?_, ?_, ?_⟩ <;>
          simp [durationSum, costSum, distanceSum,
            MixedRouteGenerator.calculateTaxiSegment]
  · intro r hr
    rw [MixedRouteGenerator.generateBothTaxiRoutes, List.mem_flatMap] at hr
    obtain ⟨st1, hst1, hr2⟩ := hr
    rw [List.mem_filterMap] at hr2
    obtain ⟨st2, hst2, heq⟩ := hr2
    cases hd1 : drvp o st1 with
    | none => rw [hd1] at heq; simp at heq
    | some d1 =>
      rw [hd1] at heq
      cases hsub : sub st1 st2 with
      | nil => rw [hsub] at heq; simp at heq
      | cons s tl =>
        rw [hsub] at heq
        cases hd2 : drvp st2 dst with
        | none => rw [hd2] at heq; simp at heq
        | some d2 =>
          rw [hd2] at heq
          simp only [Option.some.injEq] at heq
          subst heq
          refine ⟨st1, st2, s, tl, hst1, hst2, hsub, ?_, ?_, ?_⟩ <;>
            simp [durationSum, costSum, distanceSum,
              MixedRouteGenerator.calculateTaxiSegment] <;> ring
